import Mathlib

/-!
Shallow embedding of the TGwangpanbot file-custody layer.

The embedding follows `database.py` (SQLAlchemy models `File`, `User`,
`ShareLink` and the static methods of class `Database`), `user_manager.py`
(`UserManager.update_storage`), and the handler-level operations of
`main.py` (`handle_share_link`'s resolution and clone-on-access steps,
`set_share_expiry`, `delete_file_callback`).

Modelling conventions:
* Timestamps (`datetime.now()`) are an explicit `now : Int` parameter.
* Randomly generated identifiers (`uuid.uuid4().hex[:16]`) are explicit
  `String` parameters; freshness, when a property needs it, is a hypothesis
  mirroring the store's unique constraint on `file_uuid`.
* The three SQLAlchemy tables are Lean lists; `query(...).filter(col ==
  v).first()` is `List.find?`, and `query(...).filter(col == v).update(...)`
  maps the update over every matching row.
* A `KeyError` raised by `info['key']` on a missing dict key (which makes
  `session_scope` roll back, so no row is written) is the `none` branch of
  an `Option` result.
-/

/-- Row of the `files` table (`class File` in database.py), with every
column. Column defaults: `download_count = 0`, `view_count = 0`,
`is_active = True`, `created_at = datetime.now`. -/
structure FileRecord where
  file_uuid : String
  file_id : String
  file_unique_id : String
  name : String
  file_type : String
  mime_type : Option String
  extension : Option String
  size : Int
  duration : Option Int
  width : Option Int
  height : Option Int
  channel_id : Int
  channel_message_id : Option Int
  owner_id : Int
  owner_username : Option String
  download_count : Int
  view_count : Int
  is_active : Bool
  share_expires_at : Option Int
  created_at : Int
  deriving Repr, DecidableEq

/-- Row of the `users` table (`class User`). Defaults: `is_admin = False`,
`is_banned = False`, `storage_used = 0`, `created_at = datetime.now`. -/
structure UserRec where
  id : Int
  username : Option String
  first_name : Option String
  is_admin : Bool
  is_banned : Bool
  storage_used : Int
  created_at : Int
  deriving Repr, DecidableEq

/-- Row of the `share_links` table (`class ShareLink`, legacy). -/
structure ShareLinkRec where
  link_code : String
  file_uuid : String
  creator_id : Int
  download_count : Int
  is_active : Bool
  expires_at : Option Int
  created_at : Int
  deriving Repr, DecidableEq

/-- The dict returned by `Database.get_file` (exactly the keys built at
database.py lines 112-128). -/
structure FileView where
  file_uuid : String
  file_id : String
  name : String
  file_type : String
  size : Int
  duration : Option Int
  width : Option Int
  height : Option Int
  channel_id : Int
  channel_message_id : Option Int
  owner_id : Int
  download_count : Int
  view_count : Int
  share_expires_at : Option Int
  created_at : Int
  deriving Repr, DecidableEq

/-- The dict returned by `Database.get_share_link`. -/
structure ShareLinkView where
  link_code : String
  file_uuid : String
  expires_at : Option Int
  deriving Repr, DecidableEq

/-- The dict returned by `Database.get_user` / `Database.get_or_create_user`. -/
structure UserView where
  id : Int
  username : Option String
  is_admin : Bool
  is_banned : Bool
  storage_used : Int
  deriving Repr, DecidableEq

/-- The whole SQLite database: the three tables. -/
structure DB where
  files : List FileRecord
  users : List UserRec
  share_links : List ShareLinkRec
  deriving Repr, DecidableEq

/-- The `info` dict handed to `Database.add_file`. Every key may be absent
(`none`); `add_file` reads some keys with `info['k']` (KeyError when
absent) and others with `info.get('k', default)`. -/
structure UploadInfo where
  file_id : Option String
  file_unique_id : Option String
  name : Option String
  file_type : Option String
  mime_type : Option String
  extension : Option String
  size : Option Int
  duration : Option Int
  width : Option Int
  height : Option Int
  channel_id : Option Int
  channel_message_id : Option Int
  owner_id : Option Int
  owner_username : Option String
  deriving Repr, DecidableEq

/-- Projection of a `files` row to the dict `Database.get_file` returns. -/
def toView (f : FileRecord) : FileView :=
  { file_uuid := f.file_uuid
    file_id := f.file_id
    name := f.name
    file_type := f.file_type
    size := f.size
    duration := f.duration
    width := f.width
    height := f.height
    channel_id := f.channel_id
    channel_message_id := f.channel_message_id
    owner_id := f.owner_id
    download_count := f.download_count
    view_count := f.view_count
    share_expires_at := f.share_expires_at
    created_at := f.created_at }

/-- `session.query(File).filter(File.file_uuid == u).update(...)`: apply
`g` to every row whose `file_uuid` matches. -/
def updateFile (l : List FileRecord) (u : String) (g : FileRecord → FileRecord) :
    List FileRecord :=
  l.map (fun f => if f.file_uuid == u then g f else f)

/-- `Database.get_file` (database.py 104-129): first active row with the
uuid; hidden when `share_expires_at` is set and `< now`. -/
def get_file (db : DB) (file_uuid : String) (now : Int) : Option FileView :=
  match db.files.find? (fun f => f.file_uuid == file_uuid && f.is_active) with
  | none => none
  | some f =>
    match f.share_expires_at with
    | some t => if t < now then none else some (toView f)
    | none => some (toView f)

/-- `Database.add_file` (database.py 131-154). `info['file_id']`,
`info['name']`, `info['file_type']`, `info['size']`, `info['channel_id']`,
`info['owner_id']` are direct subscripts (KeyError → `none`, transaction
rolled back, no row written); the rest use `.get`. `new_uuid` stands for
`uuid.uuid4().hex[:16]`. There is no validation of `size`. -/
def add_file (db : DB) (info : UploadInfo) (new_uuid : String) (now : Int) :
    Option (String × DB) :=
  match info.file_id, info.name, info.file_type, info.size,
        info.channel_id, info.owner_id with
  | some fid, some nm, some ft, some sz, some cid, some oid =>
    let f : FileRecord :=
      { file_uuid := new_uuid
        file_id := fid
        file_unique_id := info.file_unique_id.getD ""
        name := nm
        file_type := ft
        mime_type := info.mime_type
        extension := info.extension
        size := sz
        duration := info.duration
        width := info.width
        height := info.height
        channel_id := cid
        channel_message_id := info.channel_message_id
        owner_id := oid
        owner_username := info.owner_username
        download_count := 0
        view_count := 0
        is_active := true
        share_expires_at := none
        created_at := now }
    some (new_uuid, { db with files := db.files ++ [f] })
  | _, _, _, _, _, _ => none

/-- `Database.delete_file` (database.py 156-161): set `is_active = False`
on every row with the uuid; always returns `True`. -/
def delete_file (db : DB) (file_uuid : String) : Bool × DB :=
  let files' := updateFile db.files file_uuid (fun f => { f with is_active := false })
  (true, { db with files := files' })

/-- The `cloned = File(...)` constructor call inside `Database.clone_file`
(database.py 175-191): transport and media metadata copied from the
original, the new owner, and the column defaults. -/
def clonedRecord (original : FileRecord) (new_owner_id : Int)
    (new_owner_username : Option String) (new_uuid : String) (now : Int) :
    FileRecord :=
  { file_uuid := new_uuid
    file_id := original.file_id
    file_unique_id := original.file_unique_id
    name := original.name
    file_type := original.file_type
    mime_type := original.mime_type
    extension := original.extension
    size := original.size
    duration := original.duration
    width := original.width
    height := original.height
    channel_id := original.channel_id
    channel_message_id := original.channel_message_id
    owner_id := new_owner_id
    owner_username := new_owner_username
    download_count := 0
    view_count := 0
    is_active := true
    share_expires_at := none
    created_at := now }

/-- `Database.clone_file` (database.py 163-193): find the active original;
if absent return `None`; otherwise insert a copy with the new owner, the
given fresh uuid, and column defaults (zero counters, active, no expiry,
`created_at = now`). -/
def clone_file (db : DB) (original_uuid : String) (new_owner_id : Int)
    (new_owner_username : Option String) (new_uuid : String) (now : Int) :
    Option String × DB :=
  match db.files.find? (fun f => f.file_uuid == original_uuid && f.is_active) with
  | none => (none, db)
  | some original =>
    let cloned : FileRecord :=
      clonedRecord original new_owner_id new_owner_username new_uuid now
    (some new_uuid, { db with files := db.files ++ [cloned] })

/-- `Database.increment_download` (database.py 215-221): unconditional
`download_count + 1` on every row with the uuid (no activity or expiry
filter). -/
def increment_download (db : DB) (file_uuid : String) : DB :=
  let files' := updateFile db.files file_uuid
    (fun f => { f with download_count := f.download_count + 1 })
  { db with files := files' }

/-- `Database.increment_view` (database.py 223-229): unconditional
`view_count + 1` on every row with the uuid. -/
def increment_view (db : DB) (file_uuid : String) : DB :=
  let files' := updateFile db.files file_uuid
    (fun f => { f with view_count := f.view_count + 1 })
  { db with files := files' }

/-- `Database.get_share_link` (database.py 231-247). -/
def get_share_link (db : DB) (code : String) (now : Int) : Option ShareLinkView :=
  match db.share_links.find? (fun l => l.link_code == code && l.is_active) with
  | none => none
  | some l =>
    match l.expires_at with
    | some t => if t < now then none
                else some ⟨l.link_code, l.file_uuid, l.expires_at⟩
    | none => some ⟨l.link_code, l.file_uuid, l.expires_at⟩

/-- `Database.get_user` (database.py 269-282). -/
def get_user (db : DB) (user_id : Int) : Option UserView :=
  (db.users.find? (fun u => u.id == user_id)).map
    (fun u => ⟨u.id, u.username, u.is_admin, u.is_banned, u.storage_used⟩)

/-- `Database.get_or_create_user` (database.py 284-302): return the stored
row's dict if the id exists (the supplied `username` / `first_name` are
ignored then); otherwise insert a new row with the column defaults
(`is_admin = False`, `is_banned = False`, `storage_used = 0`,
`created_at = now`) and return its dict. -/
def get_or_create_user (db : DB) (user_id : Int) (username : Option String)
    (first_name : Option String) (now : Int) : UserView × DB :=
  match db.users.find? (fun u => u.id == user_id) with
  | some u => (⟨u.id, u.username, u.is_admin, u.is_banned, u.storage_used⟩, db)
  | none =>
    let nu : UserRec :=
      { id := user_id
        username := username
        first_name := first_name
        is_admin := false
        is_banned := false
        storage_used := 0
        created_at := now }
    (⟨nu.id, nu.username, nu.is_admin, nu.is_banned, nu.storage_used⟩,
      { db with users := db.users ++ [nu] })

/-- `Database.update_user_storage` (database.py 310-314): store
`max(0, storage)` on the matching user row. -/
def update_user_storage (db : DB) (user_id : Int) (storage : Int) : DB :=
  let users' := db.users.map
    (fun u => if u.id == user_id then { u with storage_used := max 0 storage } else u)
  { db with users := users' }

/-- `Database.set_share_expiry` (database.py 316-328): `duration == 0`
clears the expiry, otherwise it becomes `now + duration`; written to every
row with the uuid, with no ownership or visibility check at this layer. -/
def set_share_expiry (db : DB) (file_uuid : String) (duration : Int) (now : Int) :
    DB :=
  let expires_at : Option Int := if duration = 0 then none else some (now + duration)
  let files' := updateFile db.files file_uuid
    (fun f => { f with share_expires_at := expires_at })
  { db with files := files' }

/-- `UserManager.update_storage` (user_manager.py 16-21): read the user,
clamp `storage_used + size_change` at zero, store it (no-op when the user
does not exist). -/
def um_update_storage (db : DB) (user_id : Int) (size_change : Int) : DB :=
  match get_user db user_id with
  | none => db
  | some u => update_user_storage db user_id (max 0 (u.storage_used + size_change))

/-- Result of the `set_share_expiry` callback handler in main.py:
"文件不存在" (not found), "无权操作" (permission denied), or success with
the stored expiry timestamp (`none` = permanent). -/
inductive ShareExpiryResult where
  | notFound
  | permissionDenied
  | ok (expires_at : Option Int)
  deriving Repr, DecidableEq

/-- The resolution step of `handle_share_link` (main.py 243-257): direct
`get_file` on the code; on miss, fall back to the legacy `ShareLink`
table, re-look up the file by its uuid and, on success, increment its
`download_count` and switch `code` to the file uuid. A resolved file
(either path) then gets `increment_view(code)`. Returns the file dict the
handler keeps working with, the (possibly rewritten) code, and the new
database state. -/
def handle_share_link_resolve (db : DB) (code : String) (now : Int) :
    Option FileView × String × DB :=
  match get_file db code now with
  | some f => (some f, code, increment_view db code)
  | none =>
    match get_share_link db code now with
    | none => (none, code, db)
    | some share_info =>
      match get_file db share_info.file_uuid now with
      | none => (none, code, db)
      | some f =>
        let db1 := increment_download db share_info.file_uuid
        (some f, share_info.file_uuid, increment_view db1 share_info.file_uuid)

/-- The clone-on-access step of `handle_share_link` (main.py 259-271),
with `f` the dict resolved for `code`: if the requester owns the file the
code (and database) are unchanged; otherwise `clone_file` transfers it and
on success the handler continues under the new uuid. `new_uuid` stands for
the uuid generated inside `clone_file`. -/
def handle_share_link_transfer (db : DB) (code : String) (f : FileView)
    (user_id : Int) (user_display : Option String) (new_uuid : String)
    (now : Int) : String × DB :=
  if f.owner_id = user_id then (code, db)
  else
    match clone_file db code user_id user_display new_uuid now with
    | (some u, db') => (u, db')
    | (none, _) => (code, db)

/-- The `set_share_expiry` callback handler (main.py 357-377): resolve the
file through `get_file` (invisible → "文件不存在"), require the requester
to be the owner (otherwise "无权操作"), then delegate to
`Database.set_share_expiry`. -/
def main_set_share_expiry (db : DB) (file_uuid : String) (requester_id : Int)
    (duration : Int) (now : Int) : ShareExpiryResult × DB :=
  match get_file db file_uuid now with
  | none => (.notFound, db)
  | some f =>
    if f.owner_id ≠ requester_id then (.permissionDenied, db)
    else
      let db' := set_share_expiry db file_uuid duration now
      (.ok (if duration = 0 then none else some (now + duration)),
        db')

/-- The delete callback handler (main.py 482-516): resolve through
`get_file` (invisible → failure message), require ownership, then
`Database.delete_file` followed by `UserManager.update_storage(owner, -size)`.
The remote channel-message delete is external I/O whose failure is
swallowed; it touches no database state. Returns whether the delete was
performed. -/
def delete_file_callback (db : DB) (file_uuid : String) (requester_id : Int)
    (now : Int) : Bool × DB :=
  match get_file db file_uuid now with
  | none => (false, db)
  | some f =>
    if f.owner_id ≠ requester_id then (false, db)
    else
      let db1 := (delete_file db file_uuid).2
      let db2 := um_update_storage db1 f.owner_id (-f.size)
      (true, db2)

/-- `find?` over an `updateFile` pass whose row-transformer is invisible to
the predicate: the first match is the image of the original first match. -/
lemma find?_updateFile (l : List FileRecord) (u : String)
    (g : FileRecord → FileRecord) (p : FileRecord → Bool)
    (hp : ∀ f, p (if f.file_uuid == u then g f else f) = p f) :
    (updateFile l u g).find? p
      = (l.find? p).map (fun f => if f.file_uuid == u then g f else f) := by
  induction l with
  | nil => rfl
  | cons a t ih =>
    by_cases hpa : p a = true
    · have h1 : p (if a.file_uuid == u then g a else a) = true := by rw [hp a]; exact hpa
      simp only [updateFile, List.map_cons] at *
      rw [List.find?_cons_of_pos _ h1, List.find?_cons_of_pos _ hpa]
      rfl
    · have h1 : ¬ (p (if a.file_uuid == u then g a else a) = true) := by
        rw [hp a]; exact hpa
      simp only [updateFile, List.map_cons] at *
      rw [List.find?_cons_of_neg _ h1, List.find?_cons_of_neg _ hpa]
      exact ih

/-- An `updateFile` pass over rows none of which carry the uuid is the
identity. -/
lemma updateFile_eq_self (l : List FileRecord) (u : String)
    (g : FileRecord → FileRecord) (h : ∀ f ∈ l, f.file_uuid ≠ u) :
    updateFile l u g = l := by
  induction l with
  | nil => rfl
  | cons a t ih =>
    have ha : ¬ ((a.file_uuid == u) = true) := by
      simp only [beq_iff_eq]
      exact h a (List.mem_cons_self a t)
    simp only [updateFile, List.map_cons] at *
    rw [if_neg ha, ih (fun f hf => h f (List.mem_cons_of_mem a hf))]

/-- A predicate of the form `uuid == w && q` is untouched by an
`updateFile` on a different uuid `u`, provided the transformer keeps the
uuid. -/
lemma find?_updateFile_ne (l : List FileRecord) (u w : String) (hw : w ≠ u)
    (g : FileRecord → FileRecord) (hg : ∀ f, (g f).file_uuid = f.file_uuid)
    (q : FileRecord → Bool) :
    (updateFile l u g).find? (fun f => f.file_uuid == w && q f)
      = l.find? (fun f => f.file_uuid == w && q f) := by
  rw [find?_updateFile]
  · cases hf : l.find? (fun f => f.file_uuid == w && q f) with
    | none => rfl
    | some r =>
      have hr : (r.file_uuid == w && q r) = true :=
        List.find?_some (p := fun (f : FileRecord) => f.file_uuid == w && q f) hf
      have hru : r.file_uuid = w := by
        have h2 := hr
        simp only [Bool.and_eq_true, beq_iff_eq] at h2
        exact h2.1
      have hnu : ¬ ((r.file_uuid == u) = true) := by
        simp only [beq_iff_eq, hru]
        exact hw
      simp only [Option.map_some']
      rw [if_neg hnu]
  · intro f
    by_cases hfu : (f.file_uuid == u) = true
    · have hf : f.file_uuid = u := beq_iff_eq.1 hfu
      have h1 : ((g f).file_uuid == w) = false := by
        simp only [beq_eq_false_iff_ne, hg f, hf]
        exact Ne.symm hw
      have h2 : (f.file_uuid == w) = false := by
        simp only [beq_eq_false_iff_ne, hf]
        exact Ne.symm hw
      rw [if_pos hfu, h1, h2, Bool.false_and, Bool.false_and]
    · rw [if_neg hfu]

/-- Same statement for the bare `uuid == w` predicate. -/
lemma find?_uuid_updateFile (l : List FileRecord) (u w : String)
    (g : FileRecord → FileRecord) (hg : ∀ f, (g f).file_uuid = f.file_uuid) :
    (updateFile l u g).find? (fun f => f.file_uuid == w)
      = (l.find? (fun f => f.file_uuid == w)).map
          (fun f => if f.file_uuid == u then g f else f) := by
  apply find?_updateFile
  intro f
  by_cases hfu : (f.file_uuid == u) = true
  · rw [if_pos hfu]
    simp only [hg f]
  · rw [if_neg hfu]

/-- With pairwise-distinct uuids (the store's unique constraint on
`file_uuid`), the row found by `uuid == u && is_active` is also the row
found by `uuid == u` alone. -/
lemma find?_uuid_of_find?_active (l : List FileRecord) (u : String)
    (r : FileRecord)
    (hnd : l.Pairwise (fun a b => a.file_uuid ≠ b.file_uuid))
    (h : l.find? (fun f => f.file_uuid == u && f.is_active) = some r) :
    l.find? (fun f => f.file_uuid == u) = some r := by
  induction l with
  | nil => simp at h
  | cons a t ih =>
    rcases List.pairwise_cons.1 hnd with ⟨ha, ht⟩
    by_cases hau : (a.file_uuid == u) = true
    · by_cases hact : a.is_active = true
      · have hpos : (a.file_uuid == u && a.is_active) = true := by
          rw [hau, hact]; rfl
        rw [List.find?_cons_of_pos (p := fun (f : FileRecord) => f.file_uuid == u && f.is_active) _ hpos] at h
        cases h
        exact List.find?_cons_of_pos (p := fun (f : FileRecord) => f.file_uuid == u) _ hau
      · have hneg : ¬ ((a.file_uuid == u && a.is_active) = true) := by
          simp only [Bool.and_eq_true]
          exact fun hc => hact hc.2
        rw [List.find?_cons_of_neg (p := fun (f : FileRecord) => f.file_uuid == u && f.is_active) _ hneg] at h
        have hrmem := List.mem_of_find?_eq_some h
        have hrp := List.find?_some (p := fun (f : FileRecord) => f.file_uuid == u && f.is_active) h
        have hru : r.file_uuid = u := by
          simp only [Bool.and_eq_true, beq_iff_eq] at hrp
          exact hrp.1
        have hau' : a.file_uuid = u := beq_iff_eq.1 hau
        exact absurd (hau'.trans hru.symm) (ha r hrmem)
    · have hneg : ¬ ((a.file_uuid == u && a.is_active) = true) := by
        simp only [Bool.and_eq_true]
        exact fun hc => hau hc.1
      rw [List.find?_cons_of_neg (p := fun (f : FileRecord) => f.file_uuid == u && f.is_active) _ hneg] at h
      rw [List.find?_cons_of_neg (p := fun (f : FileRecord) => f.file_uuid == u) _ hau]
      exact ih ht h

/-- After `delete_file u`, no row passes the `uuid == u && is_active`
filter: the record is hidden from `get_file` forever. -/
lemma find?_active_after_delete (l : List FileRecord) (u : String) :
    (updateFile l u (fun f => { f with is_active := false })).find?
      (fun f => f.file_uuid == u && f.is_active) = none := by
  apply List.find?_eq_none.2
  intro x hx
  rcases List.mem_map.1 hx with ⟨y, _, rfl⟩
  by_cases hyu : (y.file_uuid == u) = true
  · rw [if_pos hyu]
    simp
  · rw [if_neg hyu]
    simp only [Bool.and_eq_true]
    exact fun hc => hyu hc.1

/-- `get_file` on a uuid different from a deleted one is unchanged. -/
lemma get_file_delete_ne (db : DB) (u w : String) (hw : w ≠ u) (now : Int) :
    get_file (delete_file db u).2 w now = get_file db w now := by
  have hfiles : (delete_file db u).2.files
      = updateFile db.files u (fun f => { f with is_active := false }) := rfl
  unfold get_file
  rw [hfiles, find?_updateFile_ne db.files u w hw
    (fun f => { f with is_active := false }) (fun f => rfl) (fun f => f.is_active)]

/-- Concrete store used by witnesses and counterexamples: one active file
owned by user 7 whose share expires at time 5. -/
def exRec1 : FileRecord :=
  { file_uuid := "f1"
    file_id := "blob1"
    file_unique_id := "ublob1"
    name := "a.txt"
    file_type := "document"
    mime_type := some "text/plain"
    extension := some "txt"
    size := 10
    duration := none
    width := none
    height := none
    channel_id := 99
    channel_message_id := some 3
    owner_id := 7
    owner_username := some "alice"
    download_count := 0
    view_count := 0
    is_active := true
    share_expires_at := some 5
    created_at := 1 }

def exDB1 : DB := { files := [exRec1], users := [], share_links := [] }

/-- C1 (amended): `Database.get_file` returns a record exactly when the
first active row with the id exists and its `share_expires_at` is absent
or `≥ now` (the source hides the row only when `share_expires_at < now`,
so a record whose expiry equals `now` is still returned — the claim's
"strictly later than now" is off by the boundary case); an inactive or
expired row yields `None` exactly as a missing id does, and the read never
mutates the store (the model function is pure, as the source performs only
a SELECT). -/
theorem c1_resolve_visibility (db : DB) (u : String) (now : Int) (v : FileView) :
    get_file db u now = some v ↔
      ∃ r, db.files.find? (fun f => f.file_uuid == u && f.is_active) = some r ∧
        (∀ t, r.share_expires_at = some t → now ≤ t) ∧ v = toView r := by
  unfold get_file
  cases hf : db.files.find? (fun f => f.file_uuid == u && f.is_active) with
  | none => simp
  | some r =>
    cases he : r.share_expires_at with
    | none =>
      simp only [he]
      constructor
      · intro h
        injection h with h
        refine ⟨r, rfl, fun t ht => ?_, h.symm⟩
        rw [he] at ht
        cases ht
      · rintro ⟨r', hr', _, hv⟩
        injection hr' with h
        subst h
        rw [hv]
    | some t =>
      simp only [he]
      by_cases hlt : t < now
      · rw [if_pos hlt]
        constructor
        · intro h
          cases h
        · rintro ⟨r', hr', hle, _⟩
          injection hr' with h
          subst h
          exact absurd (hle t he) (not_le.2 hlt)
      · rw [if_neg hlt]
        constructor
        · intro h
          injection h with h
          refine ⟨r, rfl, fun t' ht' => ?_, h.symm⟩
          rw [he] at ht'
          injection ht' with h2
          subst h2
          exact not_lt.1 hlt
        · rintro ⟨r', hr', _, hv⟩
          injection hr' with h
          subst h
          rw [hv]

/-- C1 witness: at time 5 the example record (active, no elapsed expiry)
is returned by `get_file`, via the visibility characterisation. -/
theorem c1_resolve_visibility_witness :
    get_file exDB1 "f1" 5 = some (toView exRec1) :=
  (c1_resolve_visibility exDB1 "f1" 5 (toView exRec1)).mpr
    ⟨exRec1, by decide, fun t ht => by
      simp only [exRec1] at ht
      injection ht with h
      rw [← h], rfl⟩

/-- C1 counterexample: the claim requires `shareExpiresAt` strictly later
than `now` for the record to resolve, but at `now = 5` the example record
with `share_expires_at = 5` (not strictly later: `¬ 5 < 5`) is still
returned, because the source hides a row only when `share_expires_at <
now`. -/
theorem c1_boundary_counterexample :
    get_file exDB1 "f1" 5 = some (toView exRec1) ∧
      exRec1.share_expires_at = some 5 ∧ ¬ ((5 : Int) < 5) := by
  refine ⟨by decide, rfl, by decide⟩

/-- Elimination form of a successful `get_file`: the underlying active row
and the expiry bound. -/
lemma get_file_some_elim (db : DB) (u : String) (now : Int) (f : FileView)
    (h : get_file db u now = some f) :
    ∃ r, db.files.find? (fun x => x.file_uuid == u && x.is_active) = some r ∧
      f = toView r ∧ (∀ t, r.share_expires_at = some t → now ≤ t) := by
  unfold get_file at h
  cases hf : db.files.find? (fun x => x.file_uuid == u && x.is_active) with
  | none => rw [hf] at h; cases h
  | some r =>
    rw [hf] at h
    replace h : (match r.share_expires_at with
      | some t => if t < now then none else some (toView r)
      | none => some (toView r)) = some f := h
    cases he : r.share_expires_at with
    | none =>
      rw [he] at h
      injection h with h
      refine ⟨r, rfl, h.symm, fun t ht => ?_⟩
      rw [he] at ht
      cases ht
    | some t =>
      rw [he] at h
      replace h : (if t < now then none else some (toView r)) = some f := h
      by_cases hlt : t < now
      · rw [if_pos hlt] at h; cases h
      · rw [if_neg hlt] at h
        injection h with h
        refine ⟨r, rfl, h.symm, fun t' ht' => ?_⟩
        rw [he] at ht'
        injection ht' with h2
        subst h2
        exact not_lt.1 hlt

/-- C2 (confirmed): for a visible record `f` and any requester, the
clone-on-access step of `handle_share_link` returns the original id and
leaves the database untouched when the requester owns the record;
otherwise it appends one brand-new row with the fresh uuid, the requester
as owner with their display name, all transport and media metadata copied
from the original (`file_id`, `file_unique_id`, `name`, `file_type`,
`mime_type`, `extension`, `size`, `duration`, `width`, `height`,
`channel_id`, `channel_message_id`), zero counters, no expiry, and
`created_at = now`, while every pre-existing row — in particular the
original — is unchanged. -/
theorem c2_transfer_on_access (db : DB) (code : String) (f : FileView)
    (rid : Int) (rname : Option String) (v : String) (now0 now : Int)
    (hf : get_file db code now0 = some f) :
    (f.owner_id = rid →
      handle_share_link_transfer db code f rid rname v now = (code, db)) ∧
    (f.owner_id ≠ rid → ∃ orig c,
      db.files.find? (fun x => x.file_uuid == code && x.is_active) = some orig ∧
      f = toView orig ∧
      handle_share_link_transfer db code f rid rname v now
        = (v, { db with files := db.files ++ [c] }) ∧
      c.file_uuid = v ∧ c.file_id = orig.file_id ∧
      c.file_unique_id = orig.file_unique_id ∧ c.name = orig.name ∧
      c.file_type = orig.file_type ∧ c.mime_type = orig.mime_type ∧
      c.extension = orig.extension ∧ c.size = orig.size ∧
      c.duration = orig.duration ∧ c.width = orig.width ∧
      c.height = orig.height ∧ c.channel_id = orig.channel_id ∧
      c.channel_message_id = orig.channel_message_id ∧ c.owner_id = rid ∧
      c.owner_username = rname ∧ c.download_count = 0 ∧ c.view_count = 0 ∧
      c.is_active = true ∧ c.share_expires_at = none ∧ c.created_at = now) := by
  obtain ⟨orig, horig, hview, _⟩ := get_file_some_elim db code now0 f hf
  constructor
  · intro hown
    unfold handle_share_link_transfer
    rw [if_pos hown]
  · intro hne
    refine ⟨orig,
      { file_uuid := v
        file_id := orig.file_id
        file_unique_id := orig.file_unique_id
        name := orig.name
        file_type := orig.file_type
        mime_type := orig.mime_type
        extension := orig.extension
        size := orig.size
        duration := orig.duration
        width := orig.width
        height := orig.height
        channel_id := orig.channel_id
        channel_message_id := orig.channel_message_id
        owner_id := rid
        owner_username := rname
        download_count := 0
        view_count := 0
        is_active := true
        share_expires_at := none
        created_at := now },
      horig, hview, ?_, rfl, rfl, rfl, rfl, rfl, rfl, rfl, rfl, rfl, rfl, rfl,
      rfl, rfl, rfl, rfl, rfl, rfl, rfl, rfl, rfl⟩
    unfold handle_share_link_transfer
    rw [if_neg hne]
    unfold clone_file
    rw [horig]
    rfl

/-- C2 witness: the owner opening their own share keeps the original id
and leaves the store untouched. -/
theorem c2_transfer_on_access_witness :
    handle_share_link_transfer exDB1 "f1" (toView exRec1) 7 (some "alice") "f9" 9
      = ("f1", exDB1) :=
  (c2_transfer_on_access exDB1 "f1" (toView exRec1) 7 (some "alice") "f9" 5 9
    (by decide)).1 rfl

/-- Bare-uuid lookups on a different uuid are untouched by an
`updateFile` pass that keeps uuids. -/
lemma find?_uuid_updateFile_ne (l : List FileRecord) (u w : String) (hw : w ≠ u)
    (g : FileRecord → FileRecord) (hg : ∀ f, (g f).file_uuid = f.file_uuid) :
    (updateFile l u g).find? (fun f => f.file_uuid == w)
      = l.find? (fun f => f.file_uuid == w) := by
  rw [find?_uuid_updateFile l u w g hg]
  cases hf : l.find? (fun f => f.file_uuid == w) with
  | none => rfl
  | some r =>
    have hr : (r.file_uuid == w) = true :=
      List.find?_some (p := fun (f : FileRecord) => f.file_uuid == w) hf
    have hnu : ¬ ((r.file_uuid == u) = true) := by
      simp only [beq_iff_eq] at hr ⊢
      rw [hr]
      exact hw
    simp only [Option.map_some']
    rw [if_neg hnu]

/-- C3 (confirmed): when `clone_file` produced a clone `cu` of original
`ou` (with `cu` fresh, per the store's unique-id generation), deleting the
clone changes neither the original's stored row nor its visibility through
`get_file`, and deleting the original changes neither the clone's stored
row nor its visibility: `delete_file` flips `is_active` only on rows whose
uuid matches its argument. -/
theorem c3_delete_independence (db db' : DB) (ou cu : String) (rid : Int)
    (rname : Option String) (now : Int)
    (h : clone_file db ou rid rname cu now = (some cu, db'))
    (hfresh : ∀ r ∈ db.files, r.file_uuid ≠ cu) :
    ((delete_file db' cu).2.files.find? (fun x => x.file_uuid == ou)
        = db'.files.find? (fun x => x.file_uuid == ou)) ∧
    (∀ n, get_file (delete_file db' cu).2 ou n = get_file db' ou n) ∧
    ((delete_file db' ou).2.files.find? (fun x => x.file_uuid == cu)
        = db'.files.find? (fun x => x.file_uuid == cu)) ∧
    (∀ n, get_file (delete_file db' ou).2 cu n = get_file db' cu n) := by
  have hne : ou ≠ cu := by
    cases horig : db.files.find? (fun x => x.file_uuid == ou && x.is_active) with
    | none =>
      unfold clone_file at h
      rw [horig] at h
      replace h : ((none : Option String), db) = (some cu, db') := h
      injection h with h1 _
      cases h1
    | some orig =>
      have hmem := List.mem_of_find?_eq_some horig
      have hp := List.find?_some
        (p := fun (x : FileRecord) => x.file_uuid == ou && x.is_active) horig
      have ho : orig.file_uuid = ou := by
        simp only [Bool.and_eq_true, beq_iff_eq] at hp
        exact hp.1
      rw [← ho]
      exact hfresh orig hmem
  refine ⟨?_, ?_, ?_, ?_⟩
  · exact find?_uuid_updateFile_ne db'.files cu ou hne
      (fun f => { f with is_active := false }) (fun f => rfl)
  · intro n
    exact get_file_delete_ne db' cu ou hne n
  · exact find?_uuid_updateFile_ne db'.files ou cu (Ne.symm hne)
      (fun f => { f with is_active := false }) (fun f => rfl)
  · intro n
    exact get_file_delete_ne db' ou cu (Ne.symm hne) n

/-- The database produced by cloning the example file to user 8. -/
def cDB1 : DB := (clone_file exDB1 "f1" 8 (some "bob") "f2" 9).2

/-- C3 witness: after the concrete clone, deleting the clone leaves the
original's visibility unchanged. -/
theorem c3_delete_independence_witness :
    get_file (delete_file cDB1 "f2").2 "f1" 9 = get_file cDB1 "f1" 9 :=
  (c3_delete_independence exDB1 cDB1 "f1" "f2" 8 (some "bob") 9
    (by decide) (by decide)).2.1 9

/-- An inactive (soft-deleted) example record. -/
def exRec2 : FileRecord :=
  { file_uuid := "g1"
    file_id := "blob2"
    file_unique_id := "ublob2"
    name := "b.bin"
    file_type := "document"
    mime_type := none
    extension := some "bin"
    size := 4
    duration := none
    width := none
    height := none
    channel_id := 99
    channel_message_id := some 4
    owner_id := 7
    owner_username := some "alice"
    download_count := 2
    view_count := 3
    is_active := false
    share_expires_at := none
    created_at := 1 }

def exDB2 : DB := { files := [exRec2], users := [], share_links := [] }

/-- C4 (amended): `Database.increment_view` and
`Database.increment_download` bump the counter of the first row carrying
the id unconditionally — the `is_active` flag and `share_expires_at` are
not consulted, so an invisible record's counters move too; only a uuid
matching no row at all is a no-op, and no `NotFound` is ever reported (the
source functions return nothing). -/
theorem c4_increments_unconditional (db : DB) (u : String) :
    (∀ r, db.files.find? (fun x => x.file_uuid == u) = some r →
      (increment_view db u).files.find? (fun x => x.file_uuid == u)
          = some { r with view_count := r.view_count + 1 } ∧
      (increment_download db u).files.find? (fun x => x.file_uuid == u)
          = some { r with download_count := r.download_count + 1 }) ∧
    (db.files.find? (fun x => x.file_uuid == u) = none →
      increment_view db u = db ∧ increment_download db u = db) := by
  constructor
  · intro r hr
    have hru : (r.file_uuid == u) = true :=
      List.find?_some (p := fun (x : FileRecord) => x.file_uuid == u) hr
    constructor
    · show (updateFile db.files u
          (fun f => { f with view_count := f.view_count + 1 })).find?
          (fun x => x.file_uuid == u) = _
      rw [find?_uuid_updateFile db.files u u
        (fun f => { f with view_count := f.view_count + 1 }) (fun f => rfl), hr]
      simp only [Option.map_some']
      rw [if_pos hru]
    · show (updateFile db.files u
          (fun f => { f with download_count := f.download_count + 1 })).find?
          (fun x => x.file_uuid == u) = _
      rw [find?_uuid_updateFile db.files u u
        (fun f => { f with download_count := f.download_count + 1 }) (fun f => rfl), hr]
      simp only [Option.map_some']
      rw [if_pos hru]
  · intro hnone
    have hall : ∀ f ∈ db.files, f.file_uuid ≠ u := by
      intro f hf
      have := List.find?_eq_none.1 hnone f hf
      simpa only [beq_iff_eq] using this
    constructor
    · show ({ db with files := updateFile db.files u _ } : DB) = db
      rw [updateFile_eq_self db.files u _ hall]
    · show ({ db with files := updateFile db.files u _ } : DB) = db
      rw [updateFile_eq_self db.files u _ hall]

/-- C4 witness: on the example store, `increment_view` and
`increment_download` add one to the counters of the (visible) record
`"f1"`. -/
theorem c4_increments_unconditional_witness :
    (increment_view exDB1 "f1").files.find? (fun x => x.file_uuid == "f1")
        = some { exRec1 with view_count := 1 } ∧
    (increment_download exDB1 "f1").files.find? (fun x => x.file_uuid == "f1")
        = some { exRec1 with download_count := 1 } :=
  (c4_increments_unconditional exDB1 "f1").1 exRec1 (by decide)

/-- C4 counterexample: the record `"g1"` is inactive, so it is not visible
(`get_file` yields `None`), yet `increment_view` still bumps its
`view_count` from 3 to 4 and `increment_download` its `download_count`
from 2 to 3 — the claimed visibility gate does not exist in the code. -/
theorem c4_counterexample :
    get_file exDB2 "g1" 0 = none ∧
    (increment_view exDB2 "g1").files = [{ exRec2 with view_count := 4 }] ∧
    (increment_download exDB2 "g1").files
      = [{ exRec2 with download_count := 3 }] := by
  refine ⟨by decide, by decide, by decide⟩

def exDB0 : DB := { files := [], users := [], share_links := [] }

/-- Upload metadata with a negative size and every required key present. -/
def infoNeg : UploadInfo :=
  { file_id := some "blobN"
    file_unique_id := some "ublobN"
    name := some "n.bin"
    file_type := some "document"
    mime_type := none
    extension := none
    size := some (-5)
    duration := none
    width := none
    height := none
    channel_id := some 99
    channel_message_id := some 8
    owner_id := some 7
    owner_username := some "alice" }

/-- Well-formed upload metadata. -/
def infoOk : UploadInfo :=
  { file_id := some "blobK"
    file_unique_id := some "ublobK"
    name := some "k.txt"
    file_type := some "document"
    mime_type := some "text/plain"
    extension := some "txt"
    size := some 10
    duration := none
    width := none
    height := none
    channel_id := some 99
    channel_message_id := some 9
    owner_id := some 7
    owner_username := some "alice" }

/-- C5 (amended): `Database.add_file` fails — writing no row, since the
transaction rolls back on the KeyError — exactly when one of the directly
subscripted keys `file_id`, `name`, `file_type`, `size`, `channel_id`,
`owner_id` is missing; for every other `info`, including any negative
`size` (the source never validates the size), it appends one new row with
`active = true`, zero counters, no expiry and `created_at = now`. -/
theorem c5_add_file_behavior (db : DB) (info : UploadInfo) (v : String)
    (now : Int) :
    ((info.file_id = none ∨ info.name = none ∨ info.file_type = none ∨
      info.size = none ∨ info.channel_id = none ∨ info.owner_id = none) →
      add_file db info v now = none) ∧
    (∀ fid nm ft sz cid oid,
      info.file_id = some fid → info.name = some nm →
      info.file_type = some ft → info.size = some sz →
      info.channel_id = some cid → info.owner_id = some oid →
      add_file db info v now = some (v, { db with files := db.files ++
        [{ file_uuid := v
           file_id := fid
           file_unique_id := info.file_unique_id.getD ""
           name := nm
           file_type := ft
           mime_type := info.mime_type
           extension := info.extension
           size := sz
           duration := info.duration
           width := info.width
           height := info.height
           channel_id := cid
           channel_message_id := info.channel_message_id
           owner_id := oid
           owner_username := info.owner_username
           download_count := 0
           view_count := 0
           is_active := true
           share_expires_at := none
           created_at := now }] })) := by
  constructor
  · intro h
    unfold add_file
    rcases hfid : info.file_id with _ | fid <;>
    rcases hnm : info.name with _ | nm <;>
    rcases hft : info.file_type with _ | ft <;>
    rcases hsz : info.size with _ | sz <;>
    rcases hcid : info.channel_id with _ | cid <;>
    rcases hoid : info.owner_id with _ | oid <;>
    first
      | rfl
      | simp_all
  · intro fid nm ft sz cid oid h1 h2 h3 h4 h5 h6
    unfold add_file
    rw [h1, h2, h3, h4, h5, h6]

/-- C5 witness: valid metadata is persisted with `active = true`, zero
counters, no expiry and the given creation time. -/
theorem c5_add_file_behavior_witness :
    add_file exDB0 infoOk "k1" 2 = some ("k1", { exDB0 with
      files := exDB0.files ++
        [{ file_uuid := "k1"
           file_id := "blobK"
           file_unique_id := (infoOk.file_unique_id).getD ""
           name := "k.txt"
           file_type := "document"
           mime_type := infoOk.mime_type
           extension := infoOk.extension
           size := 10
           duration := infoOk.duration
           width := infoOk.width
           height := infoOk.height
           channel_id := 99
           channel_message_id := infoOk.channel_message_id
           owner_id := 7
           owner_username := infoOk.owner_username
           download_count := 0
           view_count := 0
           is_active := true
           share_expires_at := none
           created_at := 2 }] }) :=
  (c5_add_file_behavior exDB0 infoOk "k1" 2).2 "blobK" "k.txt" "document" 10 99 7
    rfl rfl rfl rfl rfl rfl

/-- C5 counterexample: metadata with `size = -5` and all required keys
present is not rejected — `add_file` succeeds and persists a row whose
`size` is `-5`, where the claim demands a `ValidationError` and no new
FileRecord. -/
theorem c5_counterexample :
    infoNeg.size = some (-5) ∧
    (add_file exDB0 infoNeg "n1" 0).map (fun p => p.2.files.map (fun f => f.size))
      = some [(-5 : Int)] := ⟨rfl, by decide⟩

/-- C6 (amended): the share-expiry callback first resolves the record
through `get_file`, so an invisible (inactive or already-expired) record
yields NotFound and nothing changes — in particular an owner cannot clear
an expiry that has already elapsed; for a visible record a non-owner gets
PermissionDenied with the store untouched, the owner with duration 0
clears `share_expires_at` (after which `get_file` succeeds at every
instant), and the owner with a positive duration stores
`now + duration`. -/
theorem c6_set_share_expiry_rules (db : DB) (u : String) (rid d now : Int) :
    (get_file db u now = none →
      main_set_share_expiry db u rid d now = (.notFound, db)) ∧
    (∀ f, get_file db u now = some f → f.owner_id ≠ rid →
      main_set_share_expiry db u rid d now = (.permissionDenied, db)) ∧
    (∀ f, get_file db u now = some f → f.owner_id = rid → d = 0 →
      main_set_share_expiry db u rid d now = (.ok none, set_share_expiry db u 0 now) ∧
      (∀ r, db.files.find? (fun x => x.file_uuid == u) = some r →
        (set_share_expiry db u 0 now).files.find? (fun x => x.file_uuid == u)
          = some { r with share_expires_at := none }) ∧
      (∀ n, (get_file (set_share_expiry db u 0 now) u n).isSome)) ∧
    (∀ f, get_file db u now = some f → f.owner_id = rid → 0 < d →
      main_set_share_expiry db u rid d now
        = (.ok (some (now + d)), set_share_expiry db u d now) ∧
      (∀ r, db.files.find? (fun x => x.file_uuid == u) = some r →
        (set_share_expiry db u d now).files.find? (fun x => x.file_uuid == u)
          = some { r with share_expires_at := some (now + d) })) := by
  have hform : ∀ e : Int, (set_share_expiry db u e now).files
      = updateFile db.files u
          (fun x => { x with share_expires_at :=
            if e = 0 then none else some (now + e) }) := fun e => rfl
  refine ⟨?_, ?_, ?_, ?_⟩
  · intro hn
    unfold main_set_share_expiry
    rw [hn]
  · intro f hf hne
    unfold main_set_share_expiry
    rw [hf]
    show (if f.owner_id ≠ rid then ((ShareExpiryResult.permissionDenied, db) :
        ShareExpiryResult × DB)
      else ((.ok (if d = 0 then none else some (now + d)),
        set_share_expiry db u d now))) = (.permissionDenied, db)
    rw [if_pos hne]
  · intro f hf hown hd
    subst hd
    have hnot : ¬ (f.owner_id ≠ rid) := fun hc => hc hown
    refine ⟨?_, ?_, ?_⟩
    · unfold main_set_share_expiry
      rw [hf]
      show (if f.owner_id ≠ rid then ((ShareExpiryResult.permissionDenied, db) :
          ShareExpiryResult × DB)
        else ((.ok (if (0 : Int) = 0 then none else some (now + 0)),
          set_share_expiry db u 0 now))) = (.ok none, set_share_expiry db u 0 now)
      rw [if_neg hnot, if_pos rfl]
    · intro r hr
      have hru : (r.file_uuid == u) = true :=
        List.find?_some (p := fun (x : FileRecord) => x.file_uuid == u) hr
      rw [hform 0, if_pos rfl]
      rw [find?_uuid_updateFile db.files u u
        (fun x => { x with share_expires_at := none }) (fun x => rfl), hr]
      simp only [Option.map_some']
      rw [if_pos hru]
    · intro n
      obtain ⟨orig, horig, _, _⟩ := get_file_some_elim db u now f hf
      have horu : (orig.file_uuid == u) = true := by
        have hp := List.find?_some
          (p := fun (x : FileRecord) => x.file_uuid == u && x.is_active) horig
        simp only [Bool.and_eq_true] at hp
        exact hp.1
      have hfind : (updateFile db.files u
          (fun x => { x with share_expires_at := none })).find?
          (fun x => x.file_uuid == u && x.is_active)
          = some { orig with share_expires_at := none } := by
        rw [find?_updateFile db.files u
          (fun x => { x with share_expires_at := none })
          (fun x => x.file_uuid == u && x.is_active) ?hp, horig]
        case hp =>
          intro x
          by_cases hx : (x.file_uuid == u) = true
          · rw [if_pos hx]
          · rw [if_neg hx]
        simp only [Option.map_some']
        rw [if_pos horu]
      unfold get_file
      rw [hform 0, if_pos rfl, hfind]
      rfl
  · intro f hf hown hd
    have hnot : ¬ (f.owner_id ≠ rid) := fun hc => hc hown
    have hd0 : ¬ (d = 0) := fun hc => by rw [hc] at hd; exact lt_irrefl 0 hd
    refine ⟨?_, ?_⟩
    · unfold main_set_share_expiry
      rw [hf]
      show (if f.owner_id ≠ rid then ((ShareExpiryResult.permissionDenied, db) :
          ShareExpiryResult × DB)
        else ((.ok (if d = 0 then none else some (now + d)),
          set_share_expiry db u d now)))
        = (.ok (some (now + d)), set_share_expiry db u d now)
      rw [if_neg hnot, if_neg hd0]
    · intro r hr
      have hru : (r.file_uuid == u) = true :=
        List.find?_some (p := fun (x : FileRecord) => x.file_uuid == u) hr
      rw [hform d, if_neg hd0]
      rw [find?_uuid_updateFile db.files u u
        (fun x => { x with share_expires_at := some (now + d) })
        (fun x => rfl), hr]
      simp only [Option.map_some']
      rw [if_pos hru]

/-- C6 witness: the owner putting a one-day expiry on the visible example
file succeeds and stores `now + 86400`. -/
theorem c6_set_share_expiry_rules_witness :
    main_set_share_expiry exDB1 "f1" 7 86400 3
      = (.ok (some (3 + 86400)), set_share_expiry exDB1 "f1" 86400 3) :=
  ((c6_set_share_expiry_rules exDB1 "f1" 7 86400 3).2.2.2 (toView exRec1)
    (by decide) rfl (by decide)).1

/-- C6 counterexample: at `now = 10` the example record's expiry (5) has
elapsed, so even its owner (user 7) asking for duration 0 gets NotFound
and the finite expiry is NOT cleared — the claim promises that an owner
with duration 0 always clears `shareExpiresAt`. -/
theorem c6_counterexample :
    exRec1.owner_id = 7 ∧
    main_set_share_expiry exDB1 "f1" 7 0 10 = (.notFound, exDB1) ∧
    exDB1.files.map (fun f => f.share_expires_at) = [some 5] := by
  refine ⟨rfl, by decide, rfl⟩

/-- `UserManager.update_storage` touches only the `users` table. -/
lemma um_update_storage_files (db : DB) (uid c : Int) :
    (um_update_storage db uid c).files = db.files := by
  unfold um_update_storage
  cases hg : get_user db uid with
  | none => rfl
  | some v => rfl

/-- C7 (confirmed): when the owner deletes a visible record through the
delete callback, the delete is performed, every later `get_file` on that
id yields `None`, and the row itself is still present in the `files`
table: identical to before except `is_active = false` — a soft delete,
never a physical removal. (`hnd` is the store's unique constraint on
`file_uuid`.) -/
theorem c7_soft_delete (db : DB) (u : String) (rid now : Int) (f : FileView)
    (hnd : db.files.Pairwise (fun a b => a.file_uuid ≠ b.file_uuid))
    (hf : get_file db u now = some f) (hown : f.owner_id = rid) :
    (delete_file_callback db u rid now).1 = true ∧
    (∀ n, get_file (delete_file_callback db u rid now).2 u n = none) ∧
    (∃ r, db.files.find? (fun x => x.file_uuid == u) = some r ∧
      (delete_file_callback db u rid now).2.files.find?
        (fun x => x.file_uuid == u) = some { r with is_active := false }) := by
  have hnot : ¬ (f.owner_id ≠ rid) := fun hc => hc hown
  have heq : delete_file_callback db u rid now
      = (true, um_update_storage (delete_file db u).2 f.owner_id (-f.size)) := by
    unfold delete_file_callback
    rw [hf]
    show (if f.owner_id ≠ rid then (false, db)
        else (true, um_update_storage (delete_file db u).2 f.owner_id (-f.size)))
      = _
    rw [if_neg hnot]
  have hfiles : (um_update_storage (delete_file db u).2 f.owner_id (-f.size)).files
      = updateFile db.files u (fun x => { x with is_active := false }) := by
    rw [um_update_storage_files]
    rfl
  refine ⟨?_, ?_, ?_⟩
  · rw [heq]
  · intro n
    rw [heq]
    unfold get_file
    rw [hfiles, find?_active_after_delete]
  · obtain ⟨orig, horig, _, _⟩ := get_file_some_elim db u now f hf
    have horig' : db.files.find? (fun x => x.file_uuid == u) = some orig :=
      find?_uuid_of_find?_active db.files u orig hnd horig
    have horu : (orig.file_uuid == u) = true :=
      List.find?_some (p := fun (x : FileRecord) => x.file_uuid == u) horig'
    refine ⟨orig, horig', ?_⟩
    rw [heq]
    show (um_update_storage (delete_file db u).2 f.owner_id (-f.size)).files.find?
        (fun x => x.file_uuid == u) = _
    rw [hfiles]
    rw [find?_uuid_updateFile db.files u u
      (fun x => { x with is_active := false }) (fun x => rfl), horig']
    simp only [Option.map_some']
    rw [if_pos horu]

/-- C7 witness: the owner deleting the visible example file at time 3
succeeds; the row survives as inactive. -/
theorem c7_soft_delete_witness :
    (delete_file_callback exDB1 "f1" 7 3).1 = true ∧
    (delete_file_callback exDB1 "f1" 7 3).2.files.find?
      (fun x => x.file_uuid == "f1") = some { exRec1 with is_active := false } := by
  have h := c7_soft_delete exDB1 "f1" 7 3 (toView exRec1)
    (by rw [show exDB1.files = [exRec1] from rfl]; exact List.pairwise_singleton _ _)
    (by decide) rfl
  refine ⟨h.1, ?_⟩
  obtain ⟨r, hr, hr2⟩ := h.2.2
  have : r = exRec1 := by
    have hx : exDB1.files.find? (fun x => x.file_uuid == "f1") = some exRec1 :=
      by decide
    rw [hx] at hr
    injection hr with hr
    exact hr.symm
  rw [← this]
  exact hr2

/-- C8 (confirmed): when the identifier matches no files-table row,
`handle_share_link` falls back to the legacy `share_links` table; on a
successful legacy resolution it returns the pointed-to file, rewrites the
working code to the file's uuid, and the pointed-to row's
`download_count` goes up by exactly one (its `view_count` also goes up by
one, from the view increment both paths share); a successful direct-id
resolution leaves every row's `download_count` unchanged. -/
theorem c8_legacy_resolution (db : DB) (code : String) (now : Int) :
    (∀ si f, (∀ r ∈ db.files, r.file_uuid ≠ code) →
      get_share_link db code now = some si →
      get_file db si.file_uuid now = some f →
      (handle_share_link_resolve db code now).1 = some f ∧
      (handle_share_link_resolve db code now).2.1 = si.file_uuid ∧
      (∀ r, db.files.find? (fun x => x.file_uuid == si.file_uuid) = some r →
        (handle_share_link_resolve db code now).2.2.files.find?
            (fun x => x.file_uuid == si.file_uuid)
          = some { r with download_count := r.download_count + 1,
                          view_count := r.view_count + 1 })) ∧
    (∀ f, get_file db code now = some f →
      (handle_share_link_resolve db code now).1 = some f ∧
      (handle_share_link_resolve db code now).2.1 = code ∧
      (∀ w, ((handle_share_link_resolve db code now).2.2.files.find?
              (fun x => x.file_uuid == w)).map (fun x => x.download_count)
          = (db.files.find? (fun x => x.file_uuid == w)).map
              (fun x => x.download_count))) := by
  constructor
  · intro si f h0 h2 h3
    have h1 : get_file db code now = none := by
      unfold get_file
      have : db.files.find? (fun x => x.file_uuid == code && x.is_active)
          = none := by
        apply List.find?_eq_none.2
        intro x hx
        simp only [Bool.and_eq_true, beq_iff_eq]
        exact fun hc => absurd hc.1 (h0 x hx)
      rw [this]
    have heq : handle_share_link_resolve db code now
        = (some f, si.file_uuid,
            increment_view (increment_download db si.file_uuid) si.file_uuid) := by
      unfold handle_share_link_resolve
      rw [h1, h2]
      show (match get_file db si.file_uuid now with
        | none => ((none : Option FileView), code, db)
        | some g =>
          (some g, si.file_uuid,
            increment_view (increment_download db si.file_uuid) si.file_uuid))
        = (some f, si.file_uuid,
            increment_view (increment_download db si.file_uuid) si.file_uuid)
      rw [h3]
    refine ⟨by rw [heq], by rw [heq], ?_⟩
    intro r hr
    have hru : (r.file_uuid == si.file_uuid) = true :=
      List.find?_some (p := fun (x : FileRecord) => x.file_uuid == si.file_uuid) hr
    rw [heq]
    show (updateFile (updateFile db.files si.file_uuid
        (fun x => { x with download_count := x.download_count + 1 }))
        si.file_uuid (fun x => { x with view_count := x.view_count + 1 })).find?
        (fun x => x.file_uuid == si.file_uuid) = _
    rw [find?_uuid_updateFile _ si.file_uuid si.file_uuid
      (fun x => { x with view_count := x.view_count + 1 }) (fun x => rfl)]
    rw [find?_uuid_updateFile db.files si.file_uuid si.file_uuid
      (fun x => { x with download_count := x.download_count + 1 })
      (fun x => rfl), hr]
    simp only [Option.map_some']
    rw [if_pos hru]
    have hru2 : (({ r with download_count := r.download_count + 1 } :
        FileRecord).file_uuid == si.file_uuid) = true := hru
    rw [if_pos hru2]
  · intro f hd
    have heq : handle_share_link_resolve db code now
        = (some f, code, increment_view db code) := by
      unfold handle_share_link_resolve
      rw [hd]
    refine ⟨by rw [heq], by rw [heq], ?_⟩
    intro w
    rw [heq]
    show ((updateFile db.files code
        (fun x => { x with view_count := x.view_count + 1 })).find?
        (fun x => x.file_uuid == w)).map (fun x => x.download_count) = _
    rw [find?_uuid_updateFile db.files code w
      (fun x => { x with view_count := x.view_count + 1 }) (fun x => rfl)]
    cases hfw : db.files.find? (fun x => x.file_uuid == w) with
    | none => rfl
    | some r =>
      simp only [Option.map_some']
      by_cases hc : (r.file_uuid == code) = true
      · rw [if_pos hc]
      · rw [if_neg hc]

/-- Legacy share-link row pointing at file `"f3"`. -/
def exLink : ShareLinkRec :=
  { link_code := "ab12cd34"
    file_uuid := "f3"
    creator_id := 7
    download_count := 0
    is_active := true
    expires_at := none
    created_at := 0 }

/-- The file the legacy link points at, with 5 previous downloads. -/
def exRec3 : FileRecord :=
  { file_uuid := "f3"
    file_id := "blob3"
    file_unique_id := "ublob3"
    name := "c.mp4"
    file_type := "video"
    mime_type := some "video/mp4"
    extension := some "mp4"
    size := 100
    duration := some 60
    width := some 640
    height := some 480
    channel_id := 99
    channel_message_id := some 5
    owner_id := 7
    owner_username := some "alice"
    download_count := 5
    view_count := 9
    is_active := true
    share_expires_at := none
    created_at := 1 }

def exDB3 : DB := { files := [exRec3], users := [], share_links := [exLink] }

/-- C8 witness: resolving the legacy code `"ab12cd34"` returns file
`"f3"` and bumps its download counter from 5 to exactly 6. -/
theorem c8_legacy_resolution_witness :
    (handle_share_link_resolve exDB3 "ab12cd34" 0).1 = some (toView exRec3) ∧
    (handle_share_link_resolve exDB3 "ab12cd34" 0).2.2.files.find?
        (fun x => x.file_uuid == "f3")
      = some { exRec3 with download_count := 6, view_count := 10 } := by
  have h := (c8_legacy_resolution exDB3 "ab12cd34" 0).1
    ⟨"ab12cd34", "f3", none⟩ (toView exRec3) (by decide) (by decide) (by decide)
  exact ⟨h.1, h.2.2 exRec3 (by decide)⟩

/-- One `UserManager.update_storage` step keeps every stored
`storage_used` non-negative. -/
lemma um_update_storage_nonneg (db : DB) (uid c : Int)
    (h : ∀ u ∈ db.users, 0 ≤ u.storage_used) :
    ∀ u ∈ (um_update_storage db uid c).users, 0 ≤ u.storage_used := by
  intro u hu
  unfold um_update_storage at hu
  cases hg : get_user db uid with
  | none => rw [hg] at hu; exact h u hu
  | some v =>
    rw [hg] at hu
    replace hu : u ∈ db.users.map (fun x =>
        if x.id == uid
        then { x with storage_used := max 0 (max 0 (v.storage_used + c)) }
        else x) := hu
    rcases List.mem_map.1 hu with ⟨y, hy, rfl⟩
    by_cases hyid : (y.id == uid) = true
    · rw [if_pos hyid]
      exact le_max_left 0 _
    · rw [if_neg hyid]
      exact h y hy

/-- C9 (confirmed): starting from any store whose users all have
non-negative `storage_used`, every sequence of
`UserManager.update_storage` adjustments (including the negative credit
applied after a delete) keeps every user's `storage_used` non-negative —
both the manager and `Database.update_user_storage` clamp at zero. -/
theorem c9_storage_nonneg (db : DB) (ops : List (Int × Int))
    (h : ∀ u ∈ db.users, 0 ≤ u.storage_used) :
    ∀ u ∈ (ops.foldl (fun d p => um_update_storage d p.1 p.2) db).users,
      0 ≤ u.storage_used := by
  induction ops generalizing db with
  | nil => exact h
  | cons op t ih =>
    exact ih (um_update_storage db op.1 op.2) (um_update_storage_nonneg db op.1 op.2 h)

/-- Example user with 5 bytes of storage recorded. -/
def exUser1 : UserRec :=
  { id := 1
    username := some "alice"
    first_name := none
    is_admin := false
    is_banned := false
    storage_used := 5
    created_at := 0 }

def exDB4 : DB := { files := [], users := [exUser1], share_links := [] }

/-- C9 witness: a 10-byte debit on a 5-byte balance followed by a 3-byte
credit ends at 3, never below zero. -/
theorem c9_storage_nonneg_witness :
    0 ≤ ({ exUser1 with storage_used := 3 } : UserRec).storage_used :=
  c9_storage_nonneg exDB4 [(1, -10), (1, 3)] (by decide)
    { exUser1 with storage_used := 3 } (by decide)

/-- C10 (confirmed): `Database.get_or_create_user` on an id already
stored returns the stored row's fields and leaves the store untouched —
the supplied `username` and `first_name` are ignored; it inserts a new row
(with `is_admin = false`, `is_banned = false`, `storage_used = 0`) only
when the id is absent. -/
theorem c10_get_or_create_frame (db : DB) (uid : Int) (un fn : Option String)
    (now : Int) :
    (∀ u, db.users.find? (fun x => x.id == uid) = some u →
      get_or_create_user db uid un fn now
        = (⟨u.id, u.username, u.is_admin, u.is_banned, u.storage_used⟩, db)) ∧
    (db.users.find? (fun x => x.id == uid) = none →
      (get_or_create_user db uid un fn now).2.users
        = db.users ++ [{ id := uid
                         username := un
                         first_name := fn
                         is_admin := false
                         is_banned := false
                         storage_used := 0
                         created_at := now }]) := by
  constructor
  · intro u hu
    unfold get_or_create_user
    rw [hu]
  · intro hn
    unfold get_or_create_user
    rw [hn]

/-- C10 witness: looking up the stored user 1 with a different username
and display name returns the stored fields and changes nothing. -/
theorem c10_get_or_create_frame_witness :
    get_or_create_user exDB4 1 (some "zz") (some "yy") 9
      = (⟨exUser1.id, exUser1.username, exUser1.is_admin, exUser1.is_banned,
          exUser1.storage_used⟩, exDB4) :=
  (c10_get_or_create_frame exDB4 1 (some "zz") (some "yy") 9).1 exUser1 (by decide)
